import Mathlib

/-!
Shallow embedding of the fastapi-auth-sample authentication core.

The repository snapshot contains `src/main.py` (the login route and
`authenticate_user`) and `src/database.py` (`init_db`).  The modules
`models.py` and `auth.py` that they import (the `User` table,
`verify_password`, `create_access_token`, token decoding) are not in the
snapshot; where a claim depends on them the definitions below are modelled
from the spec and say so in their doc comments.
-/

/-- User row of the credential store: `{username, hashed_password}`
(declared in the absent `models.py`; shape fixed by the spec's data model
and by the fields `src/main.py` reads). -/
structure User where
  username : String
  hashed_password : String
deriving DecidableEq, Repr

/-- The credential store: the rows of the `User` table. -/
abbrev Store := List User

/-- The query `select(User).where(User.username == username)` followed by
`result.first()` (src/main.py lines 33-35): first row whose `username`
column equals the argument, in store order. -/
def selectFirstByUsername (store : Store) (username : String) : Option User :=
  (store.filter (fun u => u.username == username)).head?

/-- `authenticate_user` from src/main.py lines 31-40: look the first row up
by username, return `False` (here `none`) when absent, `False` when
`verify_password` rejects, the user row otherwise.  `verify_password` lives
in the absent `auth.py`; the spec calls it a one-way verification function,
so it is abstracted as the parameter `verify`. -/
def authenticate_user (verify : String → String → Bool) (store : Store)
    (username password : String) : Option User :=
  match selectFirstByUsername store username with
  | none => none
  | some user => if verify password user.hashed_password then some user else none

/-- Modelled from the spec: a Token is "an opaque signed string encoding
{subject: username, expiry: timestamp}" (the concrete encoder in `auth.py`
is absent from the snapshot).  In this symbolic model the signature is
recorded as the key it was produced with. -/
structure Token where
  sub : String
  expiry : Nat
  signedWith : String
deriving DecidableEq, Repr

/-- Modelled from the spec: `issue_token(username, ttl)` "produces a signed
token whose payload is {subject: username, expiry: now+ttl}; pure function
of input and process secret key; no side effects"
(`create_access_token` in the absent `auth.py`). -/
def issue_token (key : String) (now : Nat) (username : String) (ttl : Nat) : Token :=
  { sub := username, expiry := now + ttl, signedWith := key }

/-- Modelled from the spec: `verify_token(token) -> username | invalid`
"recomputes/validates signature and expiry; fails with invalid on bad
signature or expiry elapsed" (token decoding in the absent `auth.py`). -/
def verify_token (key : String) (now : Nat) (token : Token) : Option String :=
  if token.signedWith == key && decide (now < token.expiry) then some token.sub else none

/-- Outcome of the login endpoint: either the JSON body
`{access_token, token_type}` or the raised `HTTPException`
(status code, detail, headers). -/
inductive LoginResult where
  | success (access_token : Token) (token_type : String)
  | unauthorized (status_code : Nat) (detail : String)
      (headers : List (String × String))
deriving DecidableEq, Repr

/-- `login_for_access_token` from src/main.py lines 12-25: authenticate,
raise 401 "Incorrect username or password" with a `WWW-Authenticate: Bearer`
header on failure, otherwise mint a token for `user.username` with the
configured expiry and answer `{access_token, token_type: "bearer"}`. -/
def login_for_access_token (verify : String → String → Bool) (key : String)
    (now ttl : Nat) (store : Store) (username password : String) : LoginResult :=
  match authenticate_user verify store username password with
  | none =>
      .unauthorized 401 "Incorrect username or password" [("WWW-Authenticate", "Bearer")]
  | some user => .success (issue_token key now user.username ttl) "bearer"

/-- A database computation: explicit state passing over the store, so that
reads and writes of the `Session` are visible in the model. -/
def StoreM (α : Type) := Store → α × Store

/-- The one store primitive `authenticate_user` performs:
`session.exec(select(User).where(User.username == username)).first()`,
a read that leaves the store as it was. -/
def exec_select_first (username : String) : StoreM (Option User) :=
  fun store => (selectFirstByUsername store username, store)

/-- `authenticate_user` written against the store as state: the only store
access is the read `exec_select_first` (src/main.py lines 31-40). -/
def authenticate_userM (verify : String → String → Bool)
    (username password : String) : StoreM (Option User) :=
  fun store =>
    match exec_select_first username store with
    | (none, store1) => (none, store1)
    | (some user, store1) =>
        if verify password user.hashed_password then (some user, store1)
        else (none, store1)

/-- Token verification as a store computation: per spec, validity is
"determined solely by signature and expiry at verification time, not by any
server-side record", so it does not touch the store. -/
def verify_tokenM (key : String) (now : Nat) (token : Token) :
    StoreM (Option String) :=
  fun store => (verify_token key now token, store)

/-- Database schema state: the tables present, each with its rows
(rows kept opaque as strings). -/
abbrev DBState := List (String × List String)

/-- The tables declared on `SQLModel.metadata`: the single `User` table of
the absent `models.py`. -/
def metadata_tables : List String := ["user"]

/-- `SQLModel.metadata.create_all(engine)` per its library contract: create
each declared table that is missing; existing tables and their rows are left
untouched. -/
def create_all (tables : List String) (db : DBState) : DBState :=
  db ++ (tables.filter (fun t => !(db.any (fun e => e.1 == t)))).map
    (fun t => (t, []))

/-- `init_db` from src/database.py lines 7-8:
`SQLModel.metadata.create_all(engine)`. -/
def init_db (db : DBState) : DBState := create_all metadata_tables db

/-! ### Helper lemmas -/

/-- The selected row, when present, is a store row whose username column
matches the query. -/
theorem selectFirstByUsername_some {store : Store} {username : String} {u : User}
    (h : selectFirstByUsername store username = some u) :
    u ∈ store ∧ u.username = username := by
  unfold selectFirstByUsername at h
  have hmem : u ∈ store.filter (fun v => v.username == username) := by
    cases hf : store.filter (fun v => v.username == username) with
    | nil => simp [hf] at h
    | cons a l =>
        simp [hf] at h
        simp [hf, h]
  have := List.mem_filter.mp hmem
  exact ⟨this.1, by simpa using this.2⟩

/-- If no store row has the queried username, the query returns nothing. -/
theorem selectFirstByUsername_none {store : Store} {username : String}
    (h : ∀ u ∈ store, u.username ≠ username) :
    selectFirstByUsername store username = none := by
  unfold selectFirstByUsername
  have : store.filter (fun v => v.username == username) = [] := by
    apply List.filter_eq_nil_iff.mpr
    intro a ha
    simpa using h a ha
  simp [this]

/-- A successful authentication answers the row the username query selected,
and only after `verify` accepted the presented password against it. -/
theorem authenticate_user_some {verify : String → String → Bool} {store : Store}
    {username password : String} {u : User}
    (h : authenticate_user verify store username password = some u) :
    selectFirstByUsername store username = some u ∧
      verify password u.hashed_password = true := by
  unfold authenticate_user at h
  cases hs : selectFirstByUsername store username with
  | none => simp [hs] at h
  | some v =>
      rw [hs] at h
      by_cases hv : verify password v.hashed_password = true
      · simp [hv] at h
        subst h
        exact ⟨rfl, hv⟩
      · simp [Bool.not_eq_true] at hv
        simp [hv] at h

/-! ### Claims -/

/-- Claim C1: `authenticate_user` returns "not found" (`none`) when no row
with the queried username exists; when the user exists it returns `none`
when the presented password fails the one-way verification against the
stored `hashed_password`, and the user row when it passes. -/
theorem authenticate_user_correct (verify : String → String → Bool)
    (store : Store) (username password : String)
    (huniq : ∀ u ∈ store, ∀ v ∈ store,
      u.username = username → v.username = username → u = v) :
    ((∀ u ∈ store, u.username ≠ username) →
      authenticate_user verify store username password = none) ∧
    (∀ u ∈ store, u.username = username →
      authenticate_user verify store username password =
        if verify password u.hashed_password then some u else none) := by
  constructor
  · intro habs
    unfold authenticate_user
    rw [selectFirstByUsername_none habs]
  · intro u hu hname
    have hmemf : u ∈ store.filter (fun v => v.username == username) :=
      List.mem_filter.mpr ⟨hu, by simpa using hname⟩
    cases hsel : selectFirstByUsername store username with
    | none =>
        exfalso
        unfold selectFirstByUsername at hsel
        rw [List.head?_eq_none_iff] at hsel
        rw [hsel] at hmemf
        exact List.not_mem_nil u hmemf
    | some w =>
        have hw := selectFirstByUsername_some hsel
        have : w = u := huniq w hw.1 u hu hw.2 hname
        subst this
        unfold authenticate_user
        rw [hsel]

/-- Witness for C1 at a concrete store. -/
theorem authenticate_user_correct_witness :
    authenticate_user (fun p h => p == h) [⟨"alice", "pw1"⟩] "bob" "x" = none :=
  (authenticate_user_correct (fun p h => p == h) [⟨"alice", "pw1"⟩] "bob" "x"
      (by intro u hu v hv h1 h2; simp at hu hv; rw [hu, hv])).1
    (by intro u hu; simp at hu; rw [hu]; decide)

/-- Claim C2: when authentication succeeds for `(username, password)`,
issuing a token for that username and verifying it before its expiry
elapses yields the same username back. -/
theorem login_roundtrip (verify : String → String → Bool) (store : Store)
    (key : String) (now ttl tnow : Nat) (username password : String) (u : User)
    (hauth : authenticate_user verify store username password = some u)
    (hfresh : tnow < now + ttl) :
    u.username = username ∧
      verify_token key tnow (issue_token key now u.username ttl) =
        some username := by
  have hsel := (authenticate_user_some hauth).1
  have huser := (selectFirstByUsername_some hsel).2
  refine ⟨huser, ?_⟩
  unfold verify_token issue_token
  simp [hfresh, huser]

/-- Witness for C2 at a concrete store and clock. -/
theorem login_roundtrip_witness :
    verify_token "k" 5 (issue_token "k" 0 ("alice" : String) 30) =
      some "alice" :=
  (login_roundtrip (fun p h => p == h) [⟨"alice", "pw1"⟩] "k" 0 30 5
      "alice" "pw1" ⟨"alice", "pw1"⟩ (by decide) (by decide)).2

/-- Claim C3: `verify_token` accepts a token, answering its subject, exactly
when its signature matches the process secret key and its expiry has not
elapsed; an expired token is always rejected even with a valid signature,
and a token issued under any other key is always rejected. -/
theorem verify_token_correct (key : String) (now : Nat) :
    (∀ token : Token, verify_token key now token = some token.sub ↔
      (token.signedWith = key ∧ now < token.expiry)) ∧
    (∀ token : Token, token.expiry ≤ now → verify_token key now token = none) ∧
    (∀ (keyx username : String) (ttl tnow : Nat), keyx ≠ key →
      verify_token key now (issue_token keyx tnow username ttl) = none) := by
  refine ⟨?_, ?_, ?_⟩
  · intro token
    unfold verify_token
    constructor
    · intro h
      by_cases hc : (token.signedWith == key && decide (now < token.expiry)) = true
      · simpa using hc
      · rw [Bool.not_eq_true] at hc
        simp [hc] at h
    · intro ⟨h1, h2⟩
      simp [h1, h2]
  · intro token hexp
    unfold verify_token
    have : ¬ now < token.expiry := Nat.not_lt.mpr hexp
    simp [this]
  · intro keyx username ttl tnow hne
    unfold verify_token issue_token
    simp [hne]

/-- Witness for C3: an expired token and a wrong-key token are rejected. -/
theorem verify_token_correct_witness :
    verify_token "k" 10 { sub := "alice", expiry := 10, signedWith := "k" } =
        none ∧
      verify_token "k" 0 (issue_token "other" 0 ("alice" : String) 30) = none :=
  ⟨(verify_token_correct "k" 10).2.1
      { sub := "alice", expiry := 10, signedWith := "k" } (by decide),
    (verify_token_correct "k" 0).2.2 "other" "alice" 30 0 (by decide)⟩

/-- Claim C4: the two authentication failure causes are indistinguishable:
a request with an unknown username and a request with a known username but
wrong password produce the very same unauthorized response (status 401,
detail "Incorrect username or password", `WWW-Authenticate: Bearer`). -/
theorem login_failure_indistinguishable (verify : String → String → Bool)
    (key : String) (now ttl : Nat) (store : Store)
    (u1 p1 u2 p2 : String) (r : User)
    (h1 : ∀ u ∈ store, u.username ≠ u1)
    (h2 : selectFirstByUsername store u2 = some r)
    (h2x : verify p2 r.hashed_password = false) :
    login_for_access_token verify key now ttl store u1 p1 =
        login_for_access_token verify key now ttl store u2 p2 ∧
      login_for_access_token verify key now ttl store u1 p1 =
        .unauthorized 401 "Incorrect username or password"
          [("WWW-Authenticate", "Bearer")] := by
  have ha1 : authenticate_user verify store u1 p1 = none := by
    unfold authenticate_user
    rw [selectFirstByUsername_none h1]
  have ha2 : authenticate_user verify store u2 p2 = none := by
    unfold authenticate_user
    rw [h2]
    simp [h2x]
  unfold login_for_access_token
  rw [ha1, ha2]
  exact ⟨rfl, rfl⟩

/-- Witness for C4: unknown "mallory" and known "alice" with a wrong
password get the identical response. -/
theorem login_failure_indistinguishable_witness :
    login_for_access_token (fun p h => p == h) "k" 0 30 [⟨"alice", "pw1"⟩]
        "mallory" "pw1" =
      login_for_access_token (fun p h => p == h) "k" 0 30 [⟨"alice", "pw1"⟩]
        "alice" "wrong" :=
  (login_failure_indistinguishable (fun p h => p == h) "k" 0 30
      [⟨"alice", "pw1"⟩] "mallory" "pw1" "alice" "wrong" ⟨"alice", "pw1"⟩
      (by intro u hu; simp at hu; rw [hu]; decide) (by decide) (by decide)).1

/-- Claim C5: every login either succeeds with a response whose
`token_type` is literally "bearer" (exactly when the credentials
authenticate) or answers the fixed 401 unauthorized error; no other outcome
exists. -/
theorem login_shape (verify : String → String → Bool) (key : String)
    (now ttl : Nat) (store : Store) (username password : String) :
    ((∃ u, authenticate_user verify store username password = some u) ∧
      (∃ t, login_for_access_token verify key now ttl store username password =
        .success t "bearer")) ∨
    (authenticate_user verify store username password = none ∧
      login_for_access_token verify key now ttl store username password =
        .unauthorized 401 "Incorrect username or password"
          [("WWW-Authenticate", "Bearer")]) := by
  unfold login_for_access_token
  cases h : authenticate_user verify store username password with
  | none => exact Or.inr ⟨rfl, rfl⟩
  | some u => exact Or.inl ⟨⟨u, rfl⟩, ⟨issue_token key now u.username ttl, rfl⟩⟩

/-- Claim C6: `issue_token` is a pure function of the username, the ttl, the
clock and the process secret key: its payload is exactly
{subject: username, expiry: now+ttl}, its signature is under `key`, and two
calls with the same inputs yield the same token. -/
theorem issue_token_pure (key : String) (now : Nat) (username : String)
    (ttl : Nat) :
    (issue_token key now username ttl).sub = username ∧
    (issue_token key now username ttl).expiry = now + ttl ∧
    (issue_token key now username ttl).signedWith = key ∧
    (∀ (keyx : String) (nowx : Nat) (usernamex : String) (ttlx : Nat),
      keyx = key → nowx = now → usernamex = username → ttlx = ttl →
      issue_token keyx nowx usernamex ttlx = issue_token key now username ttl) := by
  refine ⟨rfl, rfl, rfl, ?_⟩
  intro keyx nowx usernamex ttlx h1 h2 h3 h4
  rw [h1, h2, h3, h4]

/-- Witness for C6 at concrete inputs. -/
theorem issue_token_pure_witness :
    issue_token "k" 7 ("alice" : String) 30 = issue_token "k" 7 "alice" 30 :=
  (issue_token_pure "k" 7 "alice" 30).2.2.2 "k" 7 "alice" 30 rfl rfl rfl rfl

/-- Claim C7: neither authentication nor token verification mutates the
store: the store after each call equals the store before, repeating
authentication on the resulting store yields the same answer (idempotence),
and the stateful run agrees with the pure `authenticate_user`. -/
theorem authenticate_frame_idempotent (verify : String → String → Bool)
    (username password : String) (key : String) (now : Nat) (token : Token)
    (store : Store) :
    (authenticate_userM verify username password store).2 = store ∧
    (authenticate_userM verify username password
        (authenticate_userM verify username password store).2).1 =
      (authenticate_userM verify username password store).1 ∧
    (verify_tokenM key now token store).2 = store ∧
    (authenticate_userM verify username password store).1 =
      authenticate_user verify store username password := by
  unfold authenticate_userM exec_select_first verify_tokenM authenticate_user
  cases h : selectFirstByUsername store username with
  | none => simp [h]
  | some u =>
      by_cases hv : verify password u.hashed_password = true
      · simp [h, hv]
      · rw [Bool.not_eq_true] at hv
        simp [h, hv]

/-- Claim C8: with duplicate usernames in the store, `authenticate_user`
verifies the password against only the first row the query returns: rows
after the first match never influence the result, and the result is decided
by `verify` on that first row alone. -/
theorem authenticate_user_first_row (verify : String → String → Bool)
    (username password : String) (pre rest1 rest2 : List User) (r : User)
    (hpre : ∀ u ∈ pre, u.username ≠ username) (hr : r.username = username) :
    authenticate_user verify (pre ++ r :: rest1) username password =
        authenticate_user verify (pre ++ r :: rest2) username password ∧
      authenticate_user verify (pre ++ r :: rest1) username password =
        (if verify password r.hashed_password then some r else none) := by
  have hsel : ∀ rest : List User,
      selectFirstByUsername (pre ++ r :: rest) username = some r := by
    intro rest
    unfold selectFirstByUsername
    rw [List.filter_append]
    have hp : pre.filter (fun v => v.username == username) = [] :=
      List.filter_eq_nil_iff.mpr (fun a ha => by simpa using hpre a ha)
    rw [hp]
    simp [List.filter_cons, hr]
  constructor
  · unfold authenticate_user
    rw [hsel rest1, hsel rest2]
  · unfold authenticate_user
    rw [hsel rest1]

/-- Witness for C8: two rows for "alice"; only the first one's hash is
checked. -/
theorem authenticate_user_first_row_witness :
    authenticate_user (fun p h => p == h)
        ([] ++ (⟨"alice", "pw1"⟩ : User) :: [⟨"alice", "pw2"⟩])
        "alice" "pw1" = some ⟨"alice", "pw1"⟩ := by
  rw [(authenticate_user_first_row (fun p h => p == h) "alice" "pw1" []
      [⟨"alice", "pw2"⟩] [] ⟨"alice", "pw1"⟩ (by simp) rfl).2]
  decide

/-- Claim C9: a successful login's token is exactly the token issued for the
queried username, so its payload carries only that username as subject; the
response depends on the password only through the one-bit
authenticated/not-authenticated outcome. -/
theorem login_token_payload (verify : String → String → Bool) (key : String)
    (now ttl : Nat) (store : Store) (username p1 p2 : String) :
    (∀ (t : Token) (tt : String),
      login_for_access_token verify key now ttl store username p1 =
        .success t tt →
      t = issue_token key now username ttl ∧ t.sub = username) ∧
    ((authenticate_user verify store username p1).isSome =
        (authenticate_user verify store username p2).isSome →
      login_for_access_token verify key now ttl store username p1 =
        login_for_access_token verify key now ttl store username p2) := by
  constructor
  · intro t tt h
    unfold login_for_access_token at h
    cases ha : authenticate_user verify store username p1 with
    | none => rw [ha] at h; simp at h
    | some u =>
        rw [ha] at h
        have hname : u.username = username :=
          (selectFirstByUsername_some (authenticate_user_some ha).1).2
        have ht : issue_token key now u.username ttl = t := by
          injection h
        rw [← ht, hname]
        exact ⟨rfl, rfl⟩
  · intro hsame
    cases ha1 : authenticate_user verify store username p1 with
    | none =>
        cases ha2 : authenticate_user verify store username p2 with
        | none => unfold login_for_access_token; rw [ha1, ha2]
        | some u2 => rw [ha1, ha2] at hsame; simp at hsame
    | some u1 =>
        cases ha2 : authenticate_user verify store username p2 with
        | none => rw [ha1, ha2] at hsame; simp at hsame
        | some u2 =>
            have e1 := (authenticate_user_some ha1).1
            have e2 := (authenticate_user_some ha2).1
            have : u1 = u2 := by
              have := e1.symm.trans e2
              injection this
            subst this
            unfold login_for_access_token
            rw [ha1, ha2]

/-- Witness for C9: two different wrong passwords for "alice" get the same
response. -/
theorem login_token_payload_witness :
    login_for_access_token (fun p h => p == h) "k" 0 30 [⟨"alice", "pw1"⟩]
        "alice" "a" =
      login_for_access_token (fun p h => p == h) "k" 0 30 [⟨"alice", "pw1"⟩]
        "alice" "b" :=
  (login_token_payload (fun p h => p == h) "k" 0 30 [⟨"alice", "pw1"⟩]
      "alice" "a" "b").2 (by decide)

/-- Every declared table is present after `create_all`. -/
theorem create_all_has (tables : List String) (db : DBState) :
    ∀ t ∈ tables, (create_all tables db).any (fun e => e.1 == t) = true := by
  intro t ht
  unfold create_all
  rw [List.any_append]
  by_cases hd : db.any (fun e => e.1 == t) = true
  · rw [hd]; rfl
  · rw [Bool.not_eq_true] at hd
    have hmem : t ∈ tables.filter (fun s => !(db.any (fun e => e.1 == s))) :=
      List.mem_filter.mpr ⟨ht, by rw [hd]; rfl⟩
    have : (t, ([] : List String)) ∈
        (tables.filter (fun s => !(db.any (fun e => e.1 == s)))).map
          (fun s => (s, ([] : List String))) :=
      List.mem_map.mpr ⟨t, hmem, rfl⟩
    rw [hd, Bool.false_or]
    exact List.any_eq_true.mpr ⟨(t, []), this, by simp⟩

/-- Claim C10: `init_db` is idempotent on the schema: any number of calls
leaves the database exactly as one call does, and no existing table (with
its rows) is ever dropped or altered. -/
theorem init_db_idempotent (db : DBState) :
    init_db (init_db db) = init_db db ∧
    (∀ n : Nat, init_db^[n + 1] db = init_db db) ∧
    (∀ e ∈ db, e ∈ init_db db) := by
  have hidem : init_db (init_db db) = init_db db := by
    show create_all metadata_tables (create_all metadata_tables db) =
      create_all metadata_tables db
    have key : metadata_tables.filter
        (fun t => !((create_all metadata_tables db).any (fun e => e.1 == t)))
        = [] := by
      apply List.filter_eq_nil_iff.mpr
      intro t ht
      rw [create_all_has metadata_tables db t ht]
      simp
    have expand : create_all metadata_tables (create_all metadata_tables db) =
        create_all metadata_tables db ++
          (metadata_tables.filter
            (fun t => !((create_all metadata_tables db).any
              (fun e => e.1 == t)))).map (fun t => (t, ([] : List String))) :=
      rfl
    rw [expand, key]
    simp
  refine ⟨hidem, ?_, ?_⟩
  · intro n
    induction n with
    | zero => rw [Function.iterate_one]
    | succ m ih => rw [Function.iterate_succ_apply', ih, hidem]
  · intro e he
    unfold init_db create_all
    exact List.mem_append_left _ he

/-- Witness for C10: a database already holding the user table with a row is
unchanged and keeps its row. -/
theorem init_db_idempotent_witness :
    init_db (init_db ([("user", ["row1"])] : DBState)) =
        init_db [("user", ["row1"])] ∧
      ("user", ["row1"]) ∈ init_db ([("user", ["row1"])] : DBState) :=
  ⟨(init_db_idempotent [("user", ["row1"])]).1,
    (init_db_idempotent [("user", ["row1"])]).2.2 ("user", ["row1"])
      (by simp)⟩
